import Mathlib

/-!
Verification of the document-analysis chat pipeline (Supabase edge functions):
the `chat` handler (rate limiting, input validation, context assembly, upstream
status mapping), the `analyze-document` handler (content-type validation,
JSON extraction from the completion, analysis persistence), and the
`generate-recovery-codes` handler.  All definitions are shallow embeddings of
the TypeScript source under `supabase/functions/`.
-/

set_option autoImplicit false

namespace Pipeline

/-! ## Basic string scanning (models of JS string / regex primitives) -/

/-- Boolean "is `pat` a prefix of `s`" on character lists. -/
def isPrefixB : List Char → List Char → Bool
  | [], _ => true
  | _ :: _, [] => false
  | p :: ps, c :: cs => p == c && isPrefixB ps cs

/-- First index at which `pat` occurs in `s` (JS `String.indexOf` /
leftmost regex match of a literal pattern). -/
def findSubAux (pat : List Char) : List Char → Option Nat
  | [] => if isPrefixB pat [] then some 0 else none
  | c :: cs =>
    if isPrefixB pat (c :: cs) then some 0
    else (findSubAux pat cs).map (· + 1)

/-- Does `pat` occur anywhere in `s` (JS `String.includes` / regex literal test). -/
def containsSub (pat s : List Char) : Bool :=
  (findSubAux pat s).isSome

/-- ASCII lower-casing, the case folding performed by a non-unicode
case-insensitive JS regex on ASCII patterns. -/
def lowerAscii (c : Char) : Char :=
  if 'A' ≤ c ∧ c ≤ 'Z' then Char.ofNat (c.toNat + 32) else c

/-! ## `validateContentType` (analyze-document handler)

Model of the `maliciousPatterns` regex list and the per-file-type checks. -/

/-- Regex word character `\w` = `[A-Za-z0-9_]`. -/
def isWordChar (c : Char) : Bool :=
  ('a' ≤ c && c ≤ 'z') || ('A' ≤ c && c ≤ 'Z') || ('0' ≤ c && c ≤ '9') || c == '_'

/-- Regex whitespace `\s` (ASCII part). -/
def isSpaceChar (c : Char) : Bool :=
  c == ' ' || c == '\t' || c == '\n' || c == '\x0d' || c == '\x0b' || c == '\x0c'

/-- Test of `/<script[\s\S]*?>[\s\S]*?<\/script>/i` on a (lower-cased) text:
an occurrence of `<script`, then a `>` somewhere after it, then `</script>`
somewhere after that `>`. -/
def hasScriptTag (s : List Char) : Bool :=
  match findSubAux "<script".data s with
  | none => false
  | some i =>
    let after := s.drop (i + 7)
    match findSubAux ['>'] after with
    | none => false
    | some j => containsSub "</script>".data (after.drop (j + 1))

/-- Test of `/on\w+\s*=/i` on a (lower-cased) text: `on`, at least one word
character, optional whitespace, then `=`.  Since `=` is neither a word
character nor whitespace, only the maximal word-character run can be
followed by the `\s*=` tail, so a linear scan is equivalent to the regex. -/
def hasOnHandler : List Char → Bool
  | [] => false
  | 'o' :: 'n' :: rest =>
    (let w := (rest.takeWhile isWordChar).length
     if 1 ≤ w then
       match (rest.drop w).dropWhile isSpaceChar with
       | '=' :: _ => true
       | _ => hasOnHandler ('n' :: rest)
     else hasOnHandler ('n' :: rest))
  | _ :: rest => hasOnHandler rest

/-- The `maliciousPatterns` loop: each regex is case-insensitive, so the
content is folded to ASCII lower case before the literal searches. -/
def containsMalicious (content : String) : Bool :=
  let l := content.data.map lowerAscii
  hasScriptTag l || containsSub "javascript:".data l || hasOnHandler l ||
    containsSub "<iframe".data l || containsSub "<embed".data l ||
    containsSub "<object".data l

/-- Character class of `/[\x00-\x08\x0B-\x0C\x0E-\x1F\x7F-\xFF]{10,}/`. -/
def isBinChar (c : Char) : Bool :=
  c.toNat ≤ 8 || (11 ≤ c.toNat && c.toNat ≤ 12) ||
    (14 ≤ c.toNat && c.toNat ≤ 31) || (127 ≤ c.toNat && c.toNat ≤ 255)

/-- Scan for a run of at least 10 consecutive binary characters
(`k` counts the length of the current run). -/
def binRunAux : List Char → Nat → Bool
  | [], _ => false
  | c :: rest, k =>
    if isBinChar c then (if 10 ≤ k + 1 then true else binRunAux rest (k + 1))
    else binRunAux rest 0

/-- Test of the `binaryPattern` regex (no case-insensitive flag). -/
def hasBinaryRun (content : String) : Bool :=
  binRunAux content.data 0

/-- Result shape of `validateContentType`. -/
structure VResult where
  valid : Bool
  reason : Option String
deriving DecidableEq, Repr

/-- The DOCX MIME type string. -/
def docxMime : String :=
  "application/vnd.openxmlformats-officedocument.wordprocessingml.document"

/-- Model of `validateContentType(content, fileType)` from the
analyze-document handler. -/
def validateContentType (content fileType : String) : VResult :=
  if containsMalicious content then
    ⟨false, some "Potentially malicious content detected"⟩
  else if fileType = "application/pdf" then
    if isPrefixB "%PDF".data content.data then ⟨true, none⟩
    else ⟨false, some "Invalid PDF format"⟩
  else if fileType = docxMime then
    if containsSub "PK".data content.data || containsSub "<?xml".data content.data then
      ⟨true, none⟩
    else ⟨false, some "Invalid DOCX format"⟩
  else if fileType = "text/plain" ∨ fileType = "text/csv" then
    if hasBinaryRun content then ⟨false, some "Text file contains binary content"⟩
    else ⟨true, none⟩
  else ⟨false, some "Unsupported file type"⟩

example : (validateContentType "%PDF-1.4 stuff" "application/pdf").valid = true := by decide
example : (validateContentType "%PDF-1.4" "text/plain").valid = true := by decide
example : (validateContentType "hello <IFRAME src=x>" "text/plain").valid = false := by decide
example : (validateContentType "click onerror = alert" "text/plain").valid = false := by decide
example : (validateContentType "onx" "text/plain").valid = true := by decide
example : (validateContentType "<script>a</script>" "text/plain").valid = false := by decide
example : (validateContentType "plain" "image/png").valid = false := by decide

/-! ## JSON values and a model of `JSON.parse`

Numbers keep their source lexeme (no claim depends on numeric value). -/

/-- JSON values.  Objects are key/value lists in source order; as in JS,
a duplicated key is resolved to its last occurrence by `jlookup`. -/
inductive Json where
  | null
  | bool (b : Bool)
  | num (lexeme : String)
  | str (s : String)
  | arr (elems : List Json)
  | obj (members : List (String × Json))

/-- Property access `a[k]` on a parsed value: last binding of the key when
the value is an object, `undefined` (`none`) otherwise. -/
def jlookup (j : Json) (k : String) : Option Json :=
  match j with
  | .obj kvs => (kvs.reverse.find? (fun kv => kv.1 == k)).map (·.2)
  | _ => none

/-- JSON whitespace. -/
def isJsonWs (c : Char) : Bool :=
  c == ' ' || c == '\t' || c == '\n' || c == '\x0d'

/-- Drop leading JSON whitespace. -/
def skipWs (s : List Char) : List Char :=
  s.dropWhile isJsonWs

/-- Hex digit value. -/
def hexVal (c : Char) : Option Nat :=
  if '0' ≤ c ∧ c ≤ '9' then some (c.toNat - 48)
  else if 'a' ≤ c ∧ c ≤ 'f' then some (c.toNat - 87)
  else if 'A' ≤ c ∧ c ≤ 'F' then some (c.toNat - 55)
  else none

/-- Parse the body of a JSON string literal (the opening quote already
consumed), handling the escape sequences `JSON.parse` accepts and
rejecting raw control characters. -/
def parseStrAux : List Char → List Char → Option (String × List Char)
  | [], _ => none
  | '"' :: rest, acc => some (⟨acc.reverse⟩, rest)
  | '\\' :: e :: rest, acc =>
    match e with
    | '"' => parseStrAux rest ('"' :: acc)
    | '\\' => parseStrAux rest ('\\' :: acc)
    | '/' => parseStrAux rest ('/' :: acc)
    | 'b' => parseStrAux rest ('\x08' :: acc)
    | 'f' => parseStrAux rest ('\x0c' :: acc)
    | 'n' => parseStrAux rest ('\n' :: acc)
    | 'r' => parseStrAux rest ('\x0d' :: acc)
    | 't' => parseStrAux rest ('\t' :: acc)
    | 'u' =>
      match rest with
      | h1 :: h2 :: h3 :: h4 :: rest' =>
        match hexVal h1, hexVal h2, hexVal h3, hexVal h4 with
        | some a, some b, some c, some d =>
          parseStrAux rest' (Char.ofNat (4096 * a + 256 * b + 16 * c + d) :: acc)
        | _, _, _, _ => none
      | _ => none
    | _ => none
  | '\\' :: [], _ => none
  | c :: rest, acc =>
    if c.toNat < 32 then none else parseStrAux rest (c :: acc)

/-- One or more decimal digits, returning them and the remainder. -/
def takeDigits (s : List Char) : List Char × List Char :=
  (s.takeWhile (fun c => '0' ≤ c && c ≤ '9'), s.dropWhile (fun c => '0' ≤ c && c ≤ '9'))

/-- Parse a JSON number lexeme (strict grammar: optional `-`, `0` or a
nonzero-led integer part, optional fraction, optional exponent). -/
def parseNum (s : List Char) : Option (String × List Char) :=
  let (neg, s1) := match s with
    | '-' :: rest => (['-'], rest)
    | _ => (([] : List Char), s)
  match s1 with
  | [] => none
  | c :: _ =>
    if ¬ ('0' ≤ c ∧ c ≤ '9') then none
    else
      let (intPart, s2) := takeDigits s1
      if intPart.length ≥ 2 ∧ intPart.headD '0' = '0' then none
      else
        let (fracPart, s3) :=
          match s2 with
          | '.' :: rest =>
            let (ds, r) := takeDigits rest
            if ds = [] then ([], '.' :: rest) else ('.' :: ds, r)
          | _ => ([], s2)
        match s2, fracPart with
        | '.' :: _, [] => none
        | _, _ =>
          let (expPart, s4) :=
            match s3 with
            | 'e' :: rest => expTail rest ['e']
            | 'E' :: rest => expTail rest ['E']
            | _ => (some [], s3)
          match expPart with
          | none => none
          | some es => some (⟨neg ++ intPart ++ fracPart ++ es⟩, s4)
where
  /-- Exponent tail after `e`/`E`: optional sign then one or more digits. -/
  expTail (rest : List Char) (pre : List Char) : Option (List Char) × List Char :=
    let (sgn, r1) := match rest with
      | '+' :: r => (['+'], r)
      | '-' :: r => (['-'], r)
      | _ => (([] : List Char), rest)
    let (ds, r2) := takeDigits r1
    if ds = [] then (none, rest) else (some (pre ++ sgn ++ ds), r2)

/-- Parser mode: a plain value, the element loop of an array (with the
elements parsed so far), or the member loop of an object. -/
inductive PMode where
  | val
  | arrElems (acc : List Json)
  | objMems (acc : List (String × Json))

/-- Fuel-driven recursive-descent JSON parser (structural on the fuel so
that it evaluates by kernel reduction).  With fuel at least twice the
input length every JS-parseable input is parsed. -/
def parseF : Nat → PMode → List Char → Option (Json × List Char)
  | 0, _, _ => none
  | fuel + 1, .val, s =>
    match skipWs s with
    | '{' :: rest =>
      (match skipWs rest with
       | '}' :: rest' => some (.obj [], rest')
       | _ => parseF fuel (.objMems []) rest)
    | '[' :: rest =>
      (match skipWs rest with
       | ']' :: rest' => some (.arr [], rest')
       | _ => parseF fuel (.arrElems []) rest)
    | '"' :: rest => (parseStrAux rest []).map (fun (v, r) => (.str v, r))
    | 't' :: 'r' :: 'u' :: 'e' :: rest => some (.bool true, rest)
    | 'f' :: 'a' :: 'l' :: 's' :: 'e' :: rest => some (.bool false, rest)
    | 'n' :: 'u' :: 'l' :: 'l' :: rest => some (.null, rest)
    | s' => (parseNum s').map (fun (v, r) => (.num v, r))
  | fuel + 1, .arrElems acc, s =>
    match parseF fuel .val s with
    | none => none
    | some (v, rest) =>
      match skipWs rest with
      | ',' :: rest' => parseF fuel (.arrElems (acc ++ [v])) rest'
      | ']' :: rest' => some (.arr (acc ++ [v]), rest')
      | _ => none
  | fuel + 1, .objMems acc, s =>
    match skipWs s with
    | '"' :: rest =>
      match parseStrAux rest [] with
      | none => none
      | some (k, rest1) =>
        match skipWs rest1 with
        | ':' :: rest2 =>
          (match parseF fuel .val rest2 with
           | none => none
           | some (v, rest3) =>
             match skipWs rest3 with
             | ',' :: rest4 => parseF fuel (.objMems (acc ++ [(k, v)])) rest4
             | '}' :: rest4 => some (.obj (acc ++ [(k, v)]), rest4)
             | _ => none)
        | _ => none
    | _ => none

/-- Model of `JSON.parse`: parse one value and require only whitespace
after it. -/
def jsonParse (s : String) : Option Json :=
  match parseF (2 * s.length + 2) .val s.data with
  | some (v, rest) => if skipWs rest = [] then some v else none
  | none => none

example : jsonParse "null" = some .null := by rfl
example : jsonParse "  true " = some (.bool true) := by rfl
example : jsonParse "\x7b\"a\": 1\x7d" = some (.obj [("a", .num "1")]) := by rfl
example : jsonParse "[1, \"x\", null]" =
    some (.arr [.num "1", .str "x", .null]) := by rfl
example : jsonParse "\x7b\"a\": \x7b\"b\": []\x7d\x7d" =
    some (.obj [("a", .obj [("b", .arr [])])]) := by rfl
example : jsonParse "nope" = none := by rfl
example : jsonParse "\x7b\"a\": 1" = none := by rfl
example : jsonParse "01" = none := by rfl
example : jsonParse "-2.5e3" = some (.num "-2.5e3") := by rfl
example : jsonParse "\"a\\nb\"" = some (.str "a\nb") := by rfl
example : jsonParse "" = none := by rfl

/-! ## Result Parser (analyze-document handler, lines 205-222)

Models of `analysisText.match(/` ``` `json\n([\s\S]*?)\n` ``` `/)` and of the
unmarked variant, and of the parse-with-fallback block. -/

/-- Capture group of the first (leftmost, lazy) match of the fenced-`json`
regex: interior between the first occurrence of the opener and the first
occurrence of `"\n` ``` `"` after it. -/
def extractJsonFence (s : String) : Option String :=
  match findSubAux "```json\n".data s.data with
  | none => none
  | some i =>
    match findSubAux "\n```".data (s.data.drop (i + 8)) with
    | none => none
    | some k => some ⟨(s.data.drop (i + 8)).take k⟩

/-- Capture group of the first match of the unmarked-fence regex. -/
def extractPlainFence (s : String) : Option String :=
  match findSubAux "```\n".data s.data with
  | none => none
  | some i =>
    match findSubAux "\n```".data (s.data.drop (i + 4)) with
    | none => none
    | some k => some ⟨(s.data.drop (i + 4)).take k⟩

/-- The fixed fallback analysis object substituted on parse failure. -/
def fallbackAnalysis : Json :=
  .obj [("summary", .str "Document uploaded successfully. Analysis details may be incomplete."),
        ("key_points", .arr [.str "Content available for chat"]),
        ("sentiment", .str "neutral"),
        ("keywords", .arr []),
        ("entities", .obj [])]

/-- `jsonMatch ? jsonMatch[1] : analysisText`: the text handed to
`JSON.parse` (fenced-`json` interior, else unmarked-fence interior,
else the whole completion). -/
def selectAnalysisText (s : String) : String :=
  match extractJsonFence s with
  | some inner => inner
  | none =>
    match extractPlainFence s with
    | some inner => inner
    | none => s

/-- The Result Parser: parse the selected text, substituting the fixed
fallback object when `JSON.parse` throws. -/
def parseAnalysis (s : String) : Json :=
  match jsonParse (selectAnalysisText s) with
  | some v => v
  | none => fallbackAnalysis

example : parseAnalysis "```json\n\x7b\"a\": 1\x7d\n```" =
    .obj [("a", .num "1")] := by rfl
example : parseAnalysis "text ```\nnull\n``` text" = .null := by rfl
example : parseAnalysis "not json at all" = fallbackAnalysis := by rfl
example : parseAnalysis "true" = .bool true := by rfl
example : parseAnalysis "```json\nbroken\n```" = fallbackAnalysis := by rfl

/-! ## Input validation (zod schemas) -/

/-- Case-insensitive hex digit, `[a-f0-9]` under the regex `i` flag. -/
def isHexChar (c : Char) : Bool :=
  ('0' ≤ c && c ≤ '9') || ('a' ≤ c && c ≤ 'f') || ('A' ≤ c && c ≤ 'F')

/-- zod 3.22 `uuid` regex: `8-4-4-4-12` hex groups with version digit
`1`-`5` at index 14, or the nil UUID. -/
def isUuid (s : String) : Bool :=
  let cs := s.data
  (cs.length == 36 &&
    (List.range 36).all (fun i =>
      match cs.get? i with
      | none => false
      | some c =>
        if i = 8 ∨ i = 13 ∨ i = 18 ∨ i = 23 then c == '-'
        else if i = 14 then '1' ≤ c && c ≤ '5'
        else isHexChar c)) ||
  cs == "00000000-0000-0000-0000-000000000000".data

example : isUuid "123e4567-e89b-12d3-a456-426614174000" = true := by decide
example : isUuid "00000000-0000-0000-0000-000000000000" = true := by decide
example : isUuid "not-a-uuid" = false := by decide
example : isUuid "123e4567-e89b-62d3-a456-426614174000" = false := by decide

/-- Validated chat payload. -/
structure ChatPayload where
  message : String
  conversationId : String
  documentId : Option String
deriving DecidableEq, Repr

/-- `chatRequestSchema.safeParse`: an object with `message` a string of
1-5000 characters, `conversationId` a UUID string, and `documentId` an
optional UUID string (absent is fine, any non-UUID or non-string value,
including `null`, fails). -/
def chatValidate (j : Json) : Option ChatPayload :=
  match j with
  | .obj _ =>
    match jlookup j "message", jlookup j "conversationId" with
    | some (.str m), some (.str cid) =>
      if 1 ≤ m.length ∧ m.length ≤ 5000 ∧ isUuid cid then
        match jlookup j "documentId" with
        | none => some ⟨m, cid, none⟩
        | some (.str did) => if isUuid did then some ⟨m, cid, some did⟩ else none
        | some _ => none
      else none
    | _, _ => none
  | _ => none

/-- Validated analyze payload. -/
structure AnalyzePayload where
  documentId : String
  content : String
deriving DecidableEq, Repr

/-- `analyzeRequestSchema.safeParse`: `documentId` a UUID string and
`content` a string of 1 to 10 * 1024 * 1024 characters. -/
def analyzeValidate (j : Json) : Option AnalyzePayload :=
  match j with
  | .obj _ =>
    match jlookup j "documentId", jlookup j "content" with
    | some (.str did), some (.str c) =>
      if isUuid did ∧ 1 ≤ c.length ∧ c.length ≤ 10 * 1024 * 1024 then
        some ⟨did, c⟩
      else none
    | _, _ => none
  | _ => none

/-! ## Rate Limiter (chat handler, lines 269-289) -/

/-- One `rateLimits` map entry. -/
structure RLEntry where
  count : Nat
  resetAt : Nat
deriving DecidableEq, Repr

/-- The in-memory `rateLimits` map, keyed by user id (insertion order
as in a JS `Map`). -/
def RLState := List (String × RLEntry)

/-- `rateLimits.get(userId)`. -/
def lookupRL (uid : String) : RLState → Option RLEntry
  | [] => none
  | (k, e) :: rest => if k = uid then some e else lookupRL uid rest

/-- `rateLimits.set(userId, e)` (replace in place, JS `Map` semantics). -/
def setRL (uid : String) (e : RLEntry) : RLState → RLState
  | [] => [(uid, e)]
  | (k, e') :: rest =>
    if k = uid then (uid, e) :: rest else (k, e') :: setRL uid e rest

/-- `RATE_LIMIT` = 100 messages per window. -/
def RATE_LIMIT : Nat := 100

/-- `RATE_WINDOW_MS` = one hour in milliseconds. -/
def RATE_WINDOW_MS : Nat := 60 * 60 * 1000

/-- `checkRateLimit(userId)` at current time `now`, returning the allow
decision and the mutated map. -/
def checkRateLimit (now : Nat) (uid : String) (st : RLState) : Bool × RLState :=
  match lookupRL uid st with
  | none => (true, setRL uid ⟨1, now + RATE_WINDOW_MS⟩ st)
  | some e =>
    if now > e.resetAt then (true, setRL uid ⟨1, now + RATE_WINDOW_MS⟩ st)
    else if e.count ≥ RATE_LIMIT then (false, st)
    else (true, setRL uid ⟨e.count + 1, e.resetAt⟩ st)

/-- Process a sequence of calls (one timestamp each) for one user,
collecting the allow/deny decisions. -/
def runRL (ts : List Nat) (uid : String) (st : RLState) : List Bool × RLState :=
  match ts with
  | [] => ([], st)
  | t :: rest =>
    let (b, st') := checkRateLimit t uid st
    let (bs, st'') := runRL rest uid st'
    (b :: bs, st'')

/-! ## Persisted rows, updates and handler effects -/

/-- A row of the `messages` table (the columns the chat handler touches). -/
structure MessageRow where
  conversationId : String
  role : String
  content : String
  createdAt : Nat
deriving DecidableEq, Repr

/-- The `documents` columns read for chat context. -/
structure DocContext where
  content : String
  summary : Option String
  keyPoints : Option (List String)
deriving DecidableEq, Repr

/-- An `update` payload on a `documents` row: `none` marks a field absent
from the update (a JS `undefined`, dropped by serialization), `some v`
a field set to the JSON value `v`. -/
structure DocUpdate where
  summary : Option Json := none
  keyPoints : Option Json := none
  sentiment : Option Json := none
  keywords : Option Json := none
  entities : Option Json := none
  status : Option String := none

/-- The failed-status update of the content-validation branch. -/
def failedUpdate : DocUpdate := { status := some "failed" }

/-- The completed-status update built from the parsed analysis value:
`analysis.summary`, `analysis.key_points`, ... plus `status: "completed"`. -/
def completedUpdate (analysis : Json) : DocUpdate :=
  { summary := jlookup analysis "summary",
    keyPoints := jlookup analysis "key_points",
    sentiment := jlookup analysis "sentiment",
    keywords := jlookup analysis "keywords",
    entities := jlookup analysis "entities",
    status := some "completed" }

/-- Storage and upstream operations a handler performs, in order. -/
inductive Effect where
  | readMessages (conversationId : String)
  | readDocument (documentId : String)
  | aiCall
  | updateDocument (documentId : String) (u : DocUpdate)
  | deleteRecoveryCodes (uid : String)
  | insertRecoveryCodes (uid : String) (hashes : List String)

/-- Persisted analysis state of one `documents` row. -/
structure DocState where
  summary : Option Json := none
  keyPoints : Option Json := none
  sentiment : Option Json := none
  keywords : Option Json := none
  entities : Option Json := none
  status : String := "processing"

/-- Apply one update to a row: absent fields are untouched, a JSON `null`
clears a column, any other value sets it. -/
def applyField (old : Option Json) : Option Json → Option Json
  | none => old
  | some .null => none
  | some v => some v

/-- Apply a `DocUpdate` to a `DocState`. -/
def applyUpdate (d : DocState) (u : DocUpdate) : DocState :=
  { summary := applyField d.summary u.summary,
    keyPoints := applyField d.keyPoints u.keyPoints,
    sentiment := applyField d.sentiment u.sentiment,
    keywords := applyField d.keywords u.keywords,
    entities := applyField d.entities u.entities,
    status := u.status.getD d.status }

/-- Fold every `updateDocument` effect of a run over a document row. -/
def persistFold (d : DocState) : List Effect → DocState
  | [] => d
  | .updateDocument _ u :: rest => persistFold (applyUpdate d u) rest
  | _ :: rest => persistFold d rest

/-- Is an effect a storage write? -/
def Effect.isWrite : Effect → Bool
  | .updateDocument _ _ => true
  | .deleteRecoveryCodes _ => true
  | .insertRecoveryCodes _ _ => true
  | _ => false

/-- Is an effect the upstream completion call? -/
def Effect.isAiCall : Effect → Bool
  | .aiCall => true
  | _ => false

/-! ## Context Assembler and chat handler (chat function, lines 298-485) -/

/-- Insert a row into a list sorted by `createdAt` (after equal keys, so
the fold below is a stable ascending sort). -/
def insertByCreated (m : MessageRow) : List MessageRow → List MessageRow
  | [] => [m]
  | x :: xs =>
    if m.createdAt < x.createdAt then m :: x :: xs else x :: insertByCreated m xs

/-- Stable sort by `createdAt` ascending, the model of
`.order("created_at", { ascending: true })`. -/
def sortByCreated (l : List MessageRow) : List MessageRow :=
  l.foldl (fun acc m => insertByCreated m acc) []

/-- The conversation-history query of the chat handler:
`.eq("conversation_id", id).order("created_at", { ascending: true }).limit(10)`. -/
def loadHistory (conversationId : String) (rows : List MessageRow) : List MessageRow :=
  (sortByCreated (rows.filter (fun m => m.conversationId == conversationId))).take 10

/-- One role/content turn of the completion request. -/
structure Turn where
  role : String
  content : String
deriving DecidableEq, Repr

/-- The generic system instruction. -/
def genericPrompt : String :=
  "You are a helpful AI assistant. Provide clear, accurate, and concise answers."

/-- `x || "Not available"` on a nullable string (JS `||`: null, undefined
and the empty string all fall back). -/
def orNotAvailable : Option String → String
  | none => "Not available"
  | some s => if s = "" then "Not available" else s

/-- `document.key_points?.map(p => "- " + p).join("\n") || "Not available"`. -/
def keyPointsText : Option (List String) → String
  | none => "Not available"
  | some l =>
    let j := String.intercalate "\n" (l.map (fun p => "- " ++ p))
    if j = "" then "Not available" else j

/-- The document-grounded system instruction template. -/
def docPrompt (d : DocContext) : String :=
  "You are an AI assistant helping users understand and analyze their document. \n        \nDocument Summary: "
    ++ orNotAvailable d.summary
    ++ "\n\nKey Points:\n" ++ keyPointsText d.keyPoints
    ++ "\n\nDocument Content (first 3000 characters):\n" ++ ⟨d.content.data.take 3000⟩
    ++ "\n\nAnswer the user's questions based on this document content. Be accurate and reference specific parts of the document when relevant."

/-- `response.ok`: HTTP status in the 2xx range. -/
def httpOk (s : Nat) : Bool :=
  200 ≤ s && s ≤ 299

/-- Everything outside the chat handler that one request observes. -/
structure ChatEnv where
  /-- is an `Authorization` header present -/
  authHeader : Bool
  /-- `supabase.auth.getUser()`: the authenticated user id, if any -/
  user : Option String
  /-- `Date.now()` in milliseconds -/
  now : Nat
  /-- `await req.json()`: the parsed body, `none` when parsing threw -/
  body : Option Json
  /-- the `messages` table -/
  rows : List MessageRow
  /-- did the conversation-history query fail -/
  messagesError : Bool
  /-- the `documents` row for the requested document, if found -/
  doc : Option DocContext
  /-- is `LOVABLE_API_KEY` configured -/
  hasApiKey : Bool
  /-- HTTP status of the completion endpoint's response -/
  upstreamStatus : Nat
  /-- `aiData.choices[0]?.message?.content`, `none` when absent -/
  aiContent : Option String

/-- Observable outcome of one chat request. -/
structure ChatOut where
  status : Nat
  msg : String
  retryAfter : Option String
  state : RLState
  effects : List Effect
  aiMessages : Option (List Turn)

/-- The generic catch-all 500 message of the chat handler. -/
def chatCatchMsg : String :=
  "Unable to process your request. Please try again."

/-- The chat handler (`Deno.serve` body): auth check, `getUser`, rate
limit, body validation, context assembly, completion call, upstream
status mapping. -/
def chatHandler (env : ChatEnv) (st : RLState) : ChatOut :=
  if ¬ env.authHeader then
    ⟨401, "Authentication required", none, st, [], none⟩
  else
    match env.user with
    | none => ⟨401, "Invalid authentication", none, st, [], none⟩
    | some uid =>
      let rl := checkRateLimit env.now uid st
      if ¬ rl.1 then
        ⟨429, "Rate limit exceeded. Please try again later.", some "3600", rl.2, [], none⟩
      else
        match env.body with
        | none => ⟨500, chatCatchMsg, none, rl.2, [], none⟩
        | some j =>
          match chatValidate j with
          | none => ⟨400, "Invalid request parameters", none, rl.2, [], none⟩
          | some p =>
            let effs0 := [Effect.readMessages p.conversationId]
            if env.messagesError then
              ⟨500, chatCatchMsg, none, rl.2, effs0, none⟩
            else
              let history := loadHistory p.conversationId env.rows
              let (systemPrompt, effs1) :=
                match p.documentId with
                | none => (genericPrompt, effs0)
                | some did =>
                  match env.doc with
                  | none => (genericPrompt, effs0 ++ [Effect.readDocument did])
                  | some d => (docPrompt d, effs0 ++ [Effect.readDocument did])
              let aiMsgs := Turn.mk "system" systemPrompt ::
                history.map (fun m => Turn.mk m.role m.content) ++
                [Turn.mk "user" p.message]
              if ¬ env.hasApiKey then
                ⟨500, chatCatchMsg, none, rl.2, effs1, some aiMsgs⟩
              else
                let effs2 := effs1 ++ [Effect.aiCall]
                if httpOk env.upstreamStatus then
                  let answer :=
                    match env.aiContent with
                    | none => "I apologize, but I couldn't generate a response."
                    | some c =>
                      if c = "" then "I apologize, but I couldn't generate a response." else c
                  ⟨200, answer, none, rl.2, effs2, some aiMsgs⟩
                else if env.upstreamStatus = 429 then
                  ⟨429, "Rate limit exceeded. Please try again later.", none, rl.2, effs2, some aiMsgs⟩
                else if env.upstreamStatus = 402 then
                  ⟨402, "AI service requires credits. Please add credits to your account.", none, rl.2, effs2, some aiMsgs⟩
                else
                  ⟨500, chatCatchMsg, none, rl.2, effs2, some aiMsgs⟩

/-! ## Analyze-document handler (analyze function, lines 57-260) -/

/-- Everything outside the analyze handler that one request observes. -/
structure AnalyzeEnv where
  /-- is an `Authorization` header present -/
  authHeader : Bool
  /-- `await req.json()`: the parsed body, `none` when parsing threw -/
  body : Option Json
  /-- `file_type` of the fetched `documents` row, `none` when the
  lookup failed or returned nothing (404 path) -/
  docFileType : Option String
  /-- is `LOVABLE_API_KEY` configured -/
  hasApiKey : Bool
  /-- HTTP status of the completion endpoint's response -/
  upstreamStatus : Nat
  /-- `aiData.choices[0]?.message?.content`, `none` when absent -/
  aiContent : Option String
  /-- did the completed-status update fail -/
  updateError : Bool

/-- Observable outcome of one analyze request. -/
structure AnalyzeOut where
  status : Nat
  msg : String
  effects : List Effect
  analysis : Option Json

/-- The generic catch-all 500 message of the analyze handler. -/
def analyzeCatchMsg : String :=
  "Unable to analyze document. Please try again."

/-- `aiData.choices[0]?.message?.content || "\x7b\x7d"`: the completion
text handed to the Result Parser (JS `||`: both a missing and an empty
content fall back to the empty JSON object source). -/
def aiTextOf : Option String → String
  | none => "\x7b\x7d"
  | some c => if c = "" then "\x7b\x7d" else c

/-- The analyze-document handler (`Deno.serve` body): auth check, body
validation, document fetch, content-type validation (failed-status update
on rejection), completion call, result parsing, completed-status update. -/
def analyzeHandler (env : AnalyzeEnv) : AnalyzeOut :=
  if ¬ env.authHeader then
    ⟨401, "Authentication required", [], none⟩
  else
    match env.body with
    | none => ⟨500, analyzeCatchMsg, [], none⟩
    | some j =>
      match analyzeValidate j with
      | none => ⟨400, "Invalid request parameters", [], none⟩
      | some p =>
        let effs0 := [Effect.readDocument p.documentId]
        match env.docFileType with
        | none => ⟨404, "Document not found", effs0, none⟩
        | some fileType =>
          let cv := validateContentType p.content fileType
          if ¬ cv.valid then
            ⟨400, cv.reason.getD "Invalid file content",
              effs0 ++ [Effect.updateDocument p.documentId failedUpdate], none⟩
          else if ¬ env.hasApiKey then
            ⟨500, analyzeCatchMsg, effs0, none⟩
          else
            let effs1 := effs0 ++ [Effect.aiCall]
            if ¬ httpOk env.upstreamStatus then
              ⟨500, analyzeCatchMsg, effs1, none⟩
            else
              let analysis := parseAnalysis (aiTextOf env.aiContent)
              let effs2 := effs1 ++ [Effect.updateDocument p.documentId (completedUpdate analysis)]
              if env.updateError then
                ⟨500, analyzeCatchMsg, effs2, none⟩
              else
                ⟨200, "", effs2, some analysis⟩

/-! ## SHA-256 (model of `crypto.subtle.digest("SHA-256", _)`)

Words are naturals reduced mod 2^32 at every operation. -/

/-- Truncate to a 32-bit word. -/
def w32 (n : Nat) : Nat := n % 4294967296

/-- Logical right shift. -/
def shr (k x : Nat) : Nat := x / 2 ^ k

/-- Right rotation of a 32-bit word. -/
def rotr (k x : Nat) : Nat := x / 2 ^ k + x % 2 ^ k * 2 ^ (32 - k)

/-- Three-way xor. -/
def xor3 (a b c : Nat) : Nat := Nat.xor (Nat.xor a b) c

/-- Message-schedule sigma-0. -/
def ssig0 (x : Nat) : Nat := xor3 (rotr 7 x) (rotr 18 x) (shr 3 x)

/-- Message-schedule sigma-1. -/
def ssig1 (x : Nat) : Nat := xor3 (rotr 17 x) (rotr 19 x) (shr 10 x)

/-- Compression Sigma-0. -/
def bsig0 (x : Nat) : Nat := xor3 (rotr 2 x) (rotr 13 x) (rotr 22 x)

/-- Compression Sigma-1. -/
def bsig1 (x : Nat) : Nat := xor3 (rotr 6 x) (rotr 11 x) (rotr 25 x)

/-- Choice function. -/
def chF (e f g : Nat) : Nat := Nat.xor (Nat.land e f) (Nat.land (Nat.xor e 4294967295) g)

/-- Majority function. -/
def majF (a b c : Nat) : Nat :=
  Nat.xor (Nat.xor (Nat.land a b) (Nat.land a c)) (Nat.land b c)

/-- The 64 SHA-256 round constants (FIPS 180-4, written in decimal). -/
def sha256K : List Nat :=
  [1116352408, 1899447441, 3049323471, 3921009573,
   961987163, 1508970993, 2453635748, 2870763221,
   3624381080, 310598401, 607225278, 1426881987,
   1925078388, 2162078206, 2614888103, 3248222580,
   3835390401, 4022224774, 264347078, 604807628,
   770255983, 1249150122, 1555081692, 1996064986,
   2554220882, 2821834349, 2952996808, 3210313671,
   3336571891, 3584528711, 113926993, 338241895,
   666307205, 773529912, 1294757372, 1396182291,
   1695183700, 1986661051, 2177026350, 2456956037,
   2730485921, 2820302411, 3259730800, 3345764771,
   3516065817, 3600352804, 4094571909, 275423344,
   430227734, 506948616, 659060556, 883997877,
   958139571, 1322822218, 1537002063, 1747873779,
   1955562222, 2024104815, 2227730452, 2361852424,
   2428436474, 2756734187, 3204031479, 3329325298]

/-- Hash state: eight 32-bit words. -/
structure Hash8 where
  a : Nat
  b : Nat
  c : Nat
  d : Nat
  e : Nat
  f : Nat
  g : Nat
  h : Nat

/-- SHA-256 initial hash value (FIPS 180-4, written in decimal). -/
def sha256H0 : Hash8 :=
  ⟨1779033703, 3144134277, 1013904242, 2773480762,
   1359893119, 2600822924, 528734635, 1541459225⟩

/-- Big-endian 8-byte encoding of the bit length. -/
def be8 (n : Nat) : List Nat :=
  [n / 2 ^ 56 % 256, n / 2 ^ 48 % 256, n / 2 ^ 40 % 256, n / 2 ^ 32 % 256,
   n / 2 ^ 24 % 256, n / 2 ^ 16 % 256, n / 2 ^ 8 % 256, n % 256]

/-- Big-endian 4-byte encoding of a word. -/
def be4 (n : Nat) : List Nat :=
  [n / 2 ^ 24 % 256, n / 2 ^ 16 % 256, n / 2 ^ 8 % 256, n % 256]

/-- SHA-256 padding: `0x80`, zeros to 56 mod 64, then the bit length. -/
def sha256Pad (msg : List Nat) : List Nat :=
  msg ++ [128] ++ List.replicate ((64 + 56 - (msg.length + 1) % 64) % 64) 0 ++
    be8 (8 * msg.length)

/-- Split into 64-byte chunks (fuel bounds the recursion; `chunks64`
supplies enough). -/
def chunks64F : Nat → List Nat → List (List Nat)
  | 0, _ => []
  | _ + 1, [] => []
  | fuel + 1, l => l.take 64 :: chunks64F fuel (l.drop 64)

/-- Split a byte list into 64-byte chunks. -/
def chunks64 (l : List Nat) : List (List Nat) :=
  chunks64F l.length l

/-- Group bytes four at a time into big-endian 32-bit words. -/
def toWords : List Nat → List Nat
  | b0 :: b1 :: b2 :: b3 :: rest =>
    (b0 * 2 ^ 24 + b1 * 2 ^ 16 + b2 * 2 ^ 8 + b3) :: toWords rest
  | _ => []

/-- Extend the 16 chunk words by 48 schedule words. -/
def extendW : Nat → List Nat → List Nat
  | 0, w => w
  | k + 1, w =>
    let n := w.length
    let nw := w32 (ssig1 (w.getD (n - 2) 0) + w.getD (n - 7) 0 +
      ssig0 (w.getD (n - 15) 0) + w.getD (n - 16) 0)
    extendW k (w ++ [nw])

/-- One compression round with constant `k` and schedule word `w`. -/
def round1 (st : Hash8) (kw : Nat × Nat) : Hash8 :=
  let t1 := w32 (st.h + bsig1 st.e + chF st.e st.f st.g + kw.1 + kw.2)
  let t2 := w32 (bsig0 st.a + majF st.a st.b st.c)
  ⟨w32 (t1 + t2), st.a, st.b, st.c, w32 (st.d + t1), st.e, st.f, st.g⟩

/-- Process one 64-byte chunk. -/
def processChunk (h : Hash8) (chunk : List Nat) : Hash8 :=
  let w := extendW 48 (toWords chunk)
  let st := (sha256K.zip w).foldl round1 h
  ⟨w32 (h.a + st.a), w32 (h.b + st.b), w32 (h.c + st.c), w32 (h.d + st.d),
   w32 (h.e + st.e), w32 (h.f + st.f), w32 (h.g + st.g), w32 (h.h + st.h)⟩

/-- SHA-256 digest of a byte list, as 32 bytes. -/
def sha256 (msg : List Nat) : List Nat :=
  let hs := (chunks64 (sha256Pad msg)).foldl processChunk sha256H0
  be4 hs.a ++ be4 hs.b ++ be4 hs.c ++ be4 hs.d ++ be4 hs.e ++ be4 hs.f ++ be4 hs.g ++ be4 hs.h

/-- UTF-8 encoding of one character (model of `TextEncoder`). -/
def utf8Char (c : Char) : List Nat :=
  let n := c.toNat
  if n < 128 then [n]
  else if n < 2048 then [192 + n / 64, 128 + n % 64]
  else if n < 65536 then [224 + n / 4096, 128 + n / 64 % 64, 128 + n % 64]
  else [240 + n / 262144, 128 + n / 4096 % 64, 128 + n / 64 % 64, 128 + n % 64]

/-- UTF-8 encoding of a string. -/
def utf8Encode (s : String) : List Nat :=
  s.data.flatMap utf8Char

/-- Lower-case hex digit (as produced by `Number.prototype.toString(16)`). -/
def hexDig (k : Nat) : Char :=
  if k < 10 then Char.ofNat (48 + k) else Char.ofNat (87 + k)

/-- `b.toString(16).padStart(2, "0")` for a byte. -/
def hexByte (b : Nat) : List Char :=
  [hexDig (b / 16), hexDig (b % 16)]

/-- Hex string of a byte list. -/
def hexOfBytes (bs : List Nat) : List Char :=
  bs.flatMap hexByte

/-- The stored hash of one recovery code: hex of the SHA-256 of its
UTF-8 bytes. -/
def codeHash (code : String) : String :=
  ⟨hexOfBytes (sha256 (utf8Encode code))⟩

/-! ## Generate-recovery-codes handler -/

/-- Base-36 digit, upper-cased (`toString(36).toUpperCase()`). -/
def digit36 (k : Nat) : Char :=
  if k < 10 then Char.ofNat (48 + k) else Char.ofNat (55 + k)

/-- `byte.toString(36).toUpperCase()` for a byte (bytes are below 256,
hence at most two base-36 digits). -/
def byteToB36U (n : Nat) : List Char :=
  if n < 36 then [digit36 n] else [digit36 (n / 36), digit36 (n % 36)]

/-- One recovery code from one 9-byte random draw:
`Array.from(array, b => b.toString(36).toUpperCase()).join("").substring(0, 12)`. -/
def genCode (bytes : List Nat) : String :=
  ⟨(bytes.flatMap byteToB36U).take 12⟩

/-- Everything outside the recovery-codes handler that one request
observes: the authenticated user, the eight `crypto.getRandomValues`
draws, and the two storage outcomes. -/
structure RecEnv where
  user : Option String
  randoms : List (List Nat)
  deleteError : Bool
  insertError : Bool

/-- Observable outcome of one generate-recovery-codes request. -/
structure RecOut where
  status : Nat
  codes : Option (List String)
  effects : List Effect

/-- The generate-recovery-codes handler: generate eight codes and their
hashes, delete the user's previous codes, insert the hashes, return the
plain-text codes. -/
def recoveryHandler (env : RecEnv) : RecOut :=
  match env.user with
  | none => ⟨401, none, []⟩
  | some uid =>
    let codes := env.randoms.map genCode
    let hashes := codes.map codeHash
    if env.deleteError then ⟨500, none, [.deleteRecoveryCodes uid]⟩
    else if env.insertError then
      ⟨500, none, [.deleteRecoveryCodes uid, .insertRecoveryCodes uid hashes]⟩
    else ⟨200, some codes, [.deleteRecoveryCodes uid, .insertRecoveryCodes uid hashes]⟩

/-! ## Helper lemmas -/

/-- A prefix test by a concatenation implies the test by its first part. -/
theorem isPrefixB_of_append (p q s : List Char) (h : isPrefixB (p ++ q) s = true) :
    isPrefixB p s = true := by
  induction p generalizing s with
  | nil => rfl
  | cons c ps ih =>
    cases s with
    | nil => simp [isPrefixB] at h
    | cons d ds =>
      simp only [List.cons_append, isPrefixB, Bool.and_eq_true] at h ⊢
      exact ⟨h.1, ih ds h.2⟩

/-! ## Claim C6: content-type validation on PDF-shaped content -/

/-- C6 counterexample: for content `"%PDF-1.4"` the validator accepts
under file type `application/pdf`, but — contrary to the claim — it also
accepts under `text/plain`, since the text branch only rejects runs of 10
or more binary characters. -/
theorem pdf_content_text_plain_accepted :
    (validateContentType "%PDF-1.4" "application/pdf").valid = true ∧
    (validateContentType "%PDF-1.4" "text/plain").valid = true := by decide

/-- C6 (amended): content starting with `"%PDF-1.4"` and containing no
malicious pattern is accepted under `application/pdf`; under `text/plain`
the same content is accepted unless it contains a run of 10 or more
binary characters (it is rejected exactly in that case). -/
theorem pdf_content_validation (content : String)
    (hpdf : isPrefixB "%PDF-1.4".data content.data = true)
    (hmal : containsMalicious content = false) :
    (validateContentType content "application/pdf").valid = true ∧
    (validateContentType content "text/plain").valid = !(hasBinaryRun content) := by
  have hsplit : "%PDF-1.4".data = "%PDF".data ++ "-1.4".data := by decide
  rw [hsplit] at hpdf
  have h4 : isPrefixB "%PDF".data content.data = true :=
    isPrefixB_of_append _ _ _ hpdf
  constructor
  · simp [validateContentType, hmal, h4]
  · simp [validateContentType, hmal, docxMime]
    cases hb : hasBinaryRun content <;> simp

/-- C6 witness: the amended statement at the concrete content `"%PDF-1.4"`. -/
theorem pdf_content_validation_witness :
    (validateContentType "%PDF-1.4" "application/pdf").valid = true ∧
    (validateContentType "%PDF-1.4" "text/plain").valid = !(hasBinaryRun "%PDF-1.4") :=
  pdf_content_validation "%PDF-1.4" (by decide) (by decide)

/-! ## Claim C10: malicious content is rejected before the AI call -/

/-- C10: for every analyze request that passes schema validation and finds
its document, whatever the declared file type, content matching one of the
malicious patterns (script tag, `javascript:`, inline event handler,
iframe/embed/object tag) yields HTTP 400, the only write is the
failed-status update, and no completion call is made. -/
theorem malicious_content_rejected (env : AnalyzeEnv)
    (kvs : List (String × Json)) (did content ft : String)
    (hauth : env.authHeader = true)
    (hbody : env.body = some (Json.obj kvs))
    (hdid : jlookup (Json.obj kvs) "documentId" = some (.str did))
    (hcontent : jlookup (Json.obj kvs) "content" = some (.str content))
    (huuid : isUuid did = true)
    (hlen1 : 1 ≤ content.length) (hlen2 : content.length ≤ 10 * 1024 * 1024)
    (hdoc : env.docFileType = some ft)
    (hmal : containsMalicious content = true) :
    (analyzeHandler env).status = 400 ∧
    (analyzeHandler env).effects =
      [.readDocument did, .updateDocument did failedUpdate] ∧
    ∀ e ∈ (analyzeHandler env).effects, e.isAiCall = false := by
  have hval : analyzeValidate (Json.obj kvs) = some ⟨did, content⟩ := by
    simp [analyzeValidate, hdid, hcontent, huuid, hlen1, hlen2]
  have hcv : validateContentType content ft = ⟨false, some "Potentially malicious content detected"⟩ := by
    simp [validateContentType, hmal]
  simp [analyzeHandler, hauth, hbody, hval, hdoc, hcv, Effect.isAiCall]

/-- C10 witness: a concrete request with an iframe tag in a `text/plain`
document. -/
theorem malicious_content_rejected_witness :
    (analyzeHandler
        ⟨true,
         some (Json.obj [("documentId", .str "00000000-0000-0000-0000-000000000000"),
                          ("content", .str "<iframe src=x>")]),
         some "text/plain", true, 200, none, false⟩).status = 400 ∧
    (analyzeHandler
        ⟨true,
         some (Json.obj [("documentId", .str "00000000-0000-0000-0000-000000000000"),
                          ("content", .str "<iframe src=x>")]),
         some "text/plain", true, 200, none, false⟩).effects =
      [.readDocument "00000000-0000-0000-0000-000000000000",
       .updateDocument "00000000-0000-0000-0000-000000000000" failedUpdate] ∧
    ∀ e ∈ (analyzeHandler
        ⟨true,
         some (Json.obj [("documentId", .str "00000000-0000-0000-0000-000000000000"),
                          ("content", .str "<iframe src=x>")]),
         some "text/plain", true, 200, none, false⟩).effects, e.isAiCall = false :=
  malicious_content_rejected _ _ _ _ _ rfl rfl rfl rfl (by decide) (by decide) (by decide)
    rfl (by decide)

/-- Reading back the entry just set (JS `Map` get-after-set). -/
theorem lookupRL_setRL_self (uid : String) (e : RLEntry) (st : RLState) :
    lookupRL uid (setRL uid e st) = some e := by
  induction st with
  | nil => simp [setRL, lookupRL]
  | cons kv rest ih =>
    by_cases hk : kv.1 = uid
    · simp [setRL, hk, lookupRL]
    · simpa [setRL, hk, lookupRL] using ih

/-! ## Claim C7: invalid chat input is rejected with no storage access -/

/-- C7: an authenticated, not rate-limited chat request whose message is
empty or longer than 5000 characters, or whose `conversationId` (or
present `documentId`) is not a UUID, gets HTTP 400 with the generic
message and the handler touches storage in no way at all. -/
theorem chat_invalid_input_rejected (env : ChatEnv) (st : RLState) (uid : String)
    (kvs : List (String × Json)) (m cid did : String)
    (hauth : env.authHeader = true)
    (huser : env.user = some uid)
    (hallow : (checkRateLimit env.now uid st).1 = true)
    (hbody : env.body = some (Json.obj kvs))
    (hm : jlookup (Json.obj kvs) "message" = some (.str m))
    (hc : jlookup (Json.obj kvs) "conversationId" = some (.str cid))
    (hbad : 5000 < m.length ∨ m.length = 0 ∨ isUuid cid = false ∨
      (jlookup (Json.obj kvs) "documentId" = some (.str did) ∧ isUuid did = false)) :
    (chatHandler env st).status = 400 ∧
    (chatHandler env st).msg = "Invalid request parameters" ∧
    (chatHandler env st).effects = [] := by
  have hval : chatValidate (Json.obj kvs) = none := by
    rcases hbad with h | h | h | ⟨hd, hbadd⟩
    · have hcond : ¬ (1 ≤ m.length ∧ m.length ≤ 5000 ∧ isUuid cid = true) := by
        rintro ⟨-, h2, -⟩; omega
      simp [chatValidate, hm, hc, hcond]
    · have hcond : ¬ (1 ≤ m.length ∧ m.length ≤ 5000 ∧ isUuid cid = true) := by
        rintro ⟨h1, -, -⟩; omega
      simp [chatValidate, hm, hc, hcond]
    · simp [chatValidate, hm, hc, h]
    · by_cases hcond : 1 ≤ m.length ∧ m.length ≤ 5000 ∧ isUuid cid = true
      · simp [chatValidate, hm, hc, hcond, hd, hbadd]
      · simp [chatValidate, hm, hc, hcond]
  simp [chatHandler, hauth, huser, hallow, hbody, hval]

/-- C7 witness: an empty message from a fresh user. -/
theorem chat_invalid_input_rejected_witness :
    (chatHandler
        ⟨true, some "u", 0,
         some (Json.obj [("message", .str ""),
                          ("conversationId", .str "00000000-0000-0000-0000-000000000000")]),
         [], false, none, true, 200, none⟩ []).status = 400 ∧
    (chatHandler
        ⟨true, some "u", 0,
         some (Json.obj [("message", .str ""),
                          ("conversationId", .str "00000000-0000-0000-0000-000000000000")]),
         [], false, none, true, 200, none⟩ []).msg = "Invalid request parameters" ∧
    (chatHandler
        ⟨true, some "u", 0,
         some (Json.obj [("message", .str ""),
                          ("conversationId", .str "00000000-0000-0000-0000-000000000000")]),
         [], false, none, true, 200, none⟩ []).effects = [] :=
  chat_invalid_input_rejected _ _ "u" _ "" "00000000-0000-0000-0000-000000000000" ""
    rfl rfl (by decide) rfl rfl rfl (Or.inr (Or.inl rfl))

/-! ## Claim C9: the rate limiter is consulted before validation -/

/-- C9: an authenticated chat request that fails body validation still
mutates the rate-limit map exactly as `checkRateLimit` does; in
particular a previously unseen user ends up with a fresh entry of count 1
even though the request is answered 400. -/
theorem rate_limit_before_validation (env : ChatEnv) (st : RLState)
    (uid : String) (j : Json)
    (hauth : env.authHeader = true)
    (huser : env.user = some uid)
    (hbody : env.body = some j)
    (hinvalid : chatValidate j = none)
    (hfresh : lookupRL uid st = none) :
    (chatHandler env st).status = 400 ∧
    (chatHandler env st).state = (checkRateLimit env.now uid st).2 ∧
    lookupRL uid (chatHandler env st).state = some ⟨1, env.now + RATE_WINDOW_MS⟩ := by
  have hstep : checkRateLimit env.now uid st =
      (true, setRL uid ⟨1, env.now + RATE_WINDOW_MS⟩ st) := by
    simp [checkRateLimit, hfresh]
  simp [chatHandler, hauth, huser, hstep, hbody, hinvalid, lookupRL_setRL_self]

/-- C9 witness: an empty-object body from a fresh user consumes one
rate-limit unit. -/
theorem rate_limit_before_validation_witness :
    (chatHandler ⟨true, some "u", 5, some (Json.obj []), [], false, none, true, 200, none⟩ []).status = 400 ∧
    (chatHandler ⟨true, some "u", 5, some (Json.obj []), [], false, none, true, 200, none⟩ []).state =
      (checkRateLimit 5 "u" []).2 ∧
    lookupRL "u" (chatHandler ⟨true, some "u", 5, some (Json.obj []), [], false, none, true, 200, none⟩ []).state =
      some ⟨1, 5 + RATE_WINDOW_MS⟩ :=
  rate_limit_before_validation _ _ "u" _ rfl rfl rfl rfl rfl

/-! ## Claim C2: rate limiter behaviour over call sequences -/

/-- Processing a concatenation of call sequences is processing them in turn. -/
theorem runRL_append (xs ys : List Nat) (uid : String) (st : RLState) :
    runRL (xs ++ ys) uid st =
      ((runRL xs uid st).1 ++ (runRL ys uid (runRL xs uid st).2).1,
       (runRL ys uid (runRL xs uid st).2).2) := by
  induction xs generalizing st with
  | nil => simp [runRL]
  | cons t ts ih => simp [runRL, ih]

/-- Calls inside the window while below the limit are all allowed and
only increment the counter. -/
theorem runRL_increments (uid : String) (ts : List Nat) :
    ∀ (c r : Nat) (st : RLState), lookupRL uid st = some ⟨c, r⟩ →
      (∀ t ∈ ts, t ≤ r) → c + ts.length ≤ RATE_LIMIT →
      (runRL ts uid st).1 = List.replicate ts.length true ∧
      lookupRL uid (runRL ts uid st).2 = some ⟨c + ts.length, r⟩ := by
  induction ts with
  | nil => intro c r st hl _ _; simpa [runRL] using hl
  | cons t ts ih =>
    intro c r st hl hin hcount
    have ht : ¬ t > r := by
      have := hin t (by simp)
      omega
    have hc : ¬ c ≥ RATE_LIMIT := by
      simp at hcount ⊢
      omega
    have hstep : checkRateLimit t uid st = (true, setRL uid ⟨c + 1, r⟩ st) := by
      simp [checkRateLimit, hl, ht, hc]
    have hrec := ih (c + 1) r (setRL uid ⟨c + 1, r⟩ st)
      (lookupRL_setRL_self _ _ _) (fun x hx => hin x (by simp [hx]))
      (by simp at hcount ⊢; omega)
    refine ⟨?_, ?_⟩
    · simp [runRL, hstep, hrec.1, List.replicate_succ]
    · simpa [runRL, hstep, Nat.add_assoc, Nat.add_comm 1 ts.length] using hrec.2

/-- C2: starting from no entry, a call at `t0` resets the user to count 1
with the window closing at `t0 + 1h` and is allowed; 100 further calls
inside that window give 99 more allows and then a denial (the 101st call
is rejected with the counter stuck at 100); while the window is still
open the chat handler answers such a user 429 with `Retry-After: 3600`;
and a call strictly after the window reset is allowed again with a fresh
count of 1. -/
theorem rate_limiter_window (st : RLState) (uid : String) (t0 tAfter : Nat)
    (rest : List Nat) (envD : ChatEnv)
    (hfresh : lookupRL uid st = none)
    (hlen : rest.length = 100)
    (hin : ∀ t ∈ rest, t ≤ t0 + RATE_WINDOW_MS)
    (hAfter : t0 + RATE_WINDOW_MS < tAfter)
    (hdAuth : envD.authHeader = true)
    (hdUser : envD.user = some uid)
    (hdNow : envD.now ≤ t0 + RATE_WINDOW_MS) :
    (runRL (t0 :: rest) uid st).1 = List.replicate 100 true ++ [false] ∧
    lookupRL uid (runRL (t0 :: rest) uid st).2 = some ⟨100, t0 + RATE_WINDOW_MS⟩ ∧
    (chatHandler envD (runRL (t0 :: rest) uid st).2).status = 429 ∧
    (chatHandler envD (runRL (t0 :: rest) uid st).2).retryAfter = some "3600" ∧
    (checkRateLimit tAfter uid (runRL (t0 :: rest) uid st).2).1 = true ∧
    lookupRL uid (checkRateLimit tAfter uid (runRL (t0 :: rest) uid st).2).2 =
      some ⟨1, tAfter + RATE_WINDOW_MS⟩ := by
  have hstep0 : checkRateLimit t0 uid st =
      (true, setRL uid ⟨1, t0 + RATE_WINDOW_MS⟩ st) := by
    simp [checkRateLimit, hfresh]
  obtain ⟨x, hx⟩ : ∃ x, rest.drop 99 = [x] :=
    List.length_eq_one.mp (by simp [hlen])
  have hsplit : rest = rest.take 99 ++ [x] := by
    rw [← hx]; exact (List.take_append_drop 99 rest).symm
  have htake : (rest.take 99).length = 99 := by simp [hlen]
  have h99 := runRL_increments uid (rest.take 99) 1 (t0 + RATE_WINDOW_MS)
    (setRL uid ⟨1, t0 + RATE_WINDOW_MS⟩ st) (lookupRL_setRL_self _ _ _)
    (fun t ht => hin t (List.take_subset 99 rest ht))
    (by simp [htake, RATE_LIMIT])
  have hxin : x ≤ t0 + RATE_WINDOW_MS :=
    hin x (List.drop_subset 99 rest (by simp [hx]))
  set st1 := (runRL (rest.take 99) uid (setRL uid ⟨1, t0 + RATE_WINDOW_MS⟩ st)).2 with hst1
  have hlast : checkRateLimit x uid st1 = (false, st1) := by
    have hl : lookupRL uid st1 = some ⟨100, t0 + RATE_WINDOW_MS⟩ := by
      simpa [htake] using h99.2
    have : ¬ x > t0 + RATE_WINDOW_MS := by omega
    simp [checkRateLimit, hl, this, RATE_LIMIT]
  have hrun : runRL (t0 :: rest) uid st =
      (true :: (List.replicate 99 true ++ [false]), st1) := by
    conv_lhs => rw [hsplit]
    simp only [runRL, hstep0]
    rw [runRL_append]
    simp [h99.1, htake, ← hst1, runRL, hlast]
  have hlook : lookupRL uid st1 = some ⟨100, t0 + RATE_WINDOW_MS⟩ := by
    simpa [htake] using h99.2
  have hdeny : checkRateLimit envD.now uid st1 = (false, st1) := by
    have : ¬ envD.now > t0 + RATE_WINDOW_MS := by omega
    simp [checkRateLimit, hlook, this, RATE_LIMIT]
  have hreset : checkRateLimit tAfter uid st1 =
      (true, setRL uid ⟨1, tAfter + RATE_WINDOW_MS⟩ st1) := by
    simp [checkRateLimit, hlook, hAfter]
  refine ⟨?_, ?_, ?_, ?_, ?_, ?_⟩
  · rw [hrun]
    have : (100 : Nat) = 99 + 1 := rfl
    simp [this, List.replicate_succ]
  · rw [hrun]; exact hlook
  · rw [hrun]; simp [chatHandler, hdAuth, hdUser, hdeny]
  · rw [hrun]; simp [chatHandler, hdAuth, hdUser, hdeny]
  · rw [hrun]; simp [hreset]
  · rw [hrun]; simp [hreset, lookupRL_setRL_self]

/-- C2 witness: 101 calls at time 0 from a fresh user, a denied handler
request at time 0, and a successful call one millisecond after the
window reset. -/
theorem rate_limiter_window_witness :
    (runRL (0 :: List.replicate 100 0) "u" []).1 = List.replicate 100 true ++ [false] ∧
    lookupRL "u" (runRL (0 :: List.replicate 100 0) "u" []).2 =
      some ⟨100, 0 + RATE_WINDOW_MS⟩ ∧
    (chatHandler ⟨true, some "u", 0, none, [], false, none, true, 200, none⟩
      (runRL (0 :: List.replicate 100 0) "u" []).2).status = 429 ∧
    (chatHandler ⟨true, some "u", 0, none, [], false, none, true, 200, none⟩
      (runRL (0 :: List.replicate 100 0) "u" []).2).retryAfter = some "3600" ∧
    (checkRateLimit 3600001 "u" (runRL (0 :: List.replicate 100 0) "u" []).2).1 = true ∧
    lookupRL "u" (checkRateLimit 3600001 "u" (runRL (0 :: List.replicate 100 0) "u" []).2).2 =
      some ⟨1, 3600001 + RATE_WINDOW_MS⟩ :=
  rate_limiter_window [] "u" 0 3600001 (List.replicate 100 0)
    ⟨true, some "u", 0, none, [], false, none, true, 200, none⟩
    rfl (by decide) (by decide) (by decide) rfl rfl (by decide)

/-! ## Claim C1: which 10 messages enter the assembled prompt -/

/-- A conversation with 11 persisted messages, `created_at` 0..10, stored
in arbitrary table order. -/
def elevenRows : List MessageRow :=
  [⟨"00000000-0000-0000-0000-000000000000", "user", "m3", 3⟩,
   ⟨"00000000-0000-0000-0000-000000000000", "assistant", "m0", 0⟩,
   ⟨"00000000-0000-0000-0000-000000000000", "user", "m7", 7⟩,
   ⟨"00000000-0000-0000-0000-000000000000", "assistant", "m1", 1⟩,
   ⟨"00000000-0000-0000-0000-000000000000", "user", "m10", 10⟩,
   ⟨"00000000-0000-0000-0000-000000000000", "assistant", "m5", 5⟩,
   ⟨"00000000-0000-0000-0000-000000000000", "user", "m2", 2⟩,
   ⟨"00000000-0000-0000-0000-000000000000", "assistant", "m8", 8⟩,
   ⟨"00000000-0000-0000-0000-000000000000", "user", "m6", 6⟩,
   ⟨"00000000-0000-0000-0000-000000000000", "assistant", "m4", 4⟩,
   ⟨"00000000-0000-0000-0000-000000000000", "user", "m9", 9⟩]

/-- A well-formed chat request against that conversation. -/
def elevenEnv : ChatEnv :=
  ⟨true, some "u", 0,
   some (Json.obj [("message", .str "hi"),
                   ("conversationId", .str "00000000-0000-0000-0000-000000000000")]),
   elevenRows, false, none, true, 200, some "ok"⟩

/-- C1: the query orders by `created_at` ascending and then applies
`limit(10)`, so the assembled prompt contains the 10 *oldest* messages
(`created_at` 0..9) oldest first, and the newest message (`m10`) — which
the spec requires to be present — never reaches the prompt. -/
theorem chat_history_keeps_oldest_not_newest :
    (chatHandler elevenEnv []).aiMessages =
      some [⟨"system", genericPrompt⟩,
            ⟨"assistant", "m0"⟩, ⟨"assistant", "m1"⟩, ⟨"user", "m2"⟩,
            ⟨"user", "m3"⟩, ⟨"assistant", "m4"⟩, ⟨"assistant", "m5"⟩,
            ⟨"user", "m6"⟩, ⟨"user", "m7"⟩, ⟨"assistant", "m8"⟩,
            ⟨"user", "m9"⟩, ⟨"user", "hi"⟩] ∧
    ∀ t ∈ ((chatHandler elevenEnv []).aiMessages.getD []), t.content ≠ "m10" := by
  constructor
  · rfl
  · decide

/-! ## Claim C5: upstream status mapping -/

/-- A well-formed analyze request whose upstream completion call is
answered 429. -/
def analyze429Env : AnalyzeEnv :=
  ⟨true,
   some (Json.obj [("documentId", .str "00000000-0000-0000-0000-000000000000"),
                   ("content", .str "%PDF-1.4 report")]),
   some "application/pdf", true, 429, none, false⟩

/-- C5 counterexample: in the analyze path an upstream 429 is *not*
propagated as 429 — the handler throws and answers 500. -/
theorem analyze_upstream_429_gives_500 :
    (analyzeHandler analyze429Env).status = 500 ∧
    (analyzeHandler analyze429Env).status ≠ 429 := by decide

set_option maxRecDepth 4000 in
/-- C5 (amended): on a non-success upstream response the chat handler
maps 429 to 429, 402 to 402 and anything else to 500, while the analyze
handler maps every non-success status to 500; in both paths the
completion endpoint is called exactly once (no retry). -/
theorem upstream_status_mapping (s : Nat)
    (envC : ChatEnv) (stC : RLState) (uid : String) (j : Json) (p : ChatPayload)
    (envA : AnalyzeEnv) (ja : Json) (pa : AnalyzePayload) (ft : String)
    (hcAuth : envC.authHeader = true)
    (hcUser : envC.user = some uid)
    (hcAllow : (checkRateLimit envC.now uid stC).1 = true)
    (hcBody : envC.body = some j)
    (hcVal : chatValidate j = some p)
    (hcMsgs : envC.messagesError = false)
    (hcKey : envC.hasApiKey = true)
    (hcUp : envC.upstreamStatus = s)
    (haAuth : envA.authHeader = true)
    (haBody : envA.body = some ja)
    (haVal : analyzeValidate ja = some pa)
    (haDoc : envA.docFileType = some ft)
    (haCv : (validateContentType pa.content ft).valid = true)
    (haKey : envA.hasApiKey = true)
    (haUp : envA.upstreamStatus = s)
    (hFail : httpOk s = false) :
    (chatHandler envC stC).status =
      (if s = 429 then 429 else if s = 402 then 402 else 500) ∧
    ((chatHandler envC stC).effects.filter Effect.isAiCall).length = 1 ∧
    (analyzeHandler envA).status = 500 ∧
    ((analyzeHandler envA).effects.filter Effect.isAiCall).length = 1 := by
  have hchat : (chatHandler envC stC).status =
      (if s = 429 then 429 else if s = 402 then 402 else 500) ∧
      ((chatHandler envC stC).effects.filter Effect.isAiCall).length = 1 := by
    cases hpd : p.documentId with
    | none =>
      simp only [chatHandler, hcAuth, hcUser, hcAllow, hcBody, hcVal, hcMsgs, hcKey,
        hcUp, hFail, hpd, Bool.not_eq_true, Bool.false_eq_true, if_false,
        Bool.not_false, if_true]
      split_ifs <;> simp_all [Effect.isAiCall]
    | some did =>
      cases hdc : envC.doc with
      | none =>
        simp only [chatHandler, hcAuth, hcUser, hcAllow, hcBody, hcVal, hcMsgs, hcKey,
          hcUp, hFail, hpd, hdc, Bool.not_eq_true, Bool.false_eq_true, if_false,
          Bool.not_false, if_true]
        split_ifs <;> simp_all [Effect.isAiCall]
      | some d =>
        simp only [chatHandler, hcAuth, hcUser, hcAllow, hcBody, hcVal, hcMsgs, hcKey,
          hcUp, hFail, hpd, hdc, Bool.not_eq_true, Bool.false_eq_true, if_false,
          Bool.not_false, if_true]
        split_ifs <;> simp_all [Effect.isAiCall]
  have han : (analyzeHandler envA).status = 500 ∧
      ((analyzeHandler envA).effects.filter Effect.isAiCall).length = 1 := by
    rcases hv : validateContentType pa.content ft with ⟨valid, reason⟩
    rw [hv] at haCv
    simp only at haCv
    subst haCv
    simp [analyzeHandler, haAuth, haBody, haVal, haDoc, hv, haKey, haUp, hFail,
      Effect.isAiCall]
  exact ⟨hchat.1, hchat.2, han.1, han.2⟩

/-- C5 witness: upstream status 429 on concrete chat and analyze
requests. -/
theorem upstream_status_mapping_witness :
    (chatHandler
        ⟨true, some "u", 0,
         some (Json.obj [("message", .str "hi"),
                          ("conversationId", .str "00000000-0000-0000-0000-000000000000")]),
         [], false, none, true, 429, none⟩ []).status =
      (if 429 = 429 then 429 else if 429 = 402 then 402 else 500) ∧
    ((chatHandler
        ⟨true, some "u", 0,
         some (Json.obj [("message", .str "hi"),
                          ("conversationId", .str "00000000-0000-0000-0000-000000000000")]),
         [], false, none, true, 429, none⟩ []).effects.filter Effect.isAiCall).length = 1 ∧
    (analyzeHandler analyze429Env).status = 500 ∧
    ((analyzeHandler analyze429Env).effects.filter Effect.isAiCall).length = 1 :=
  upstream_status_mapping 429 _ [] "u" _ ⟨"hi", "00000000-0000-0000-0000-000000000000", none⟩
    analyze429Env _ ⟨"00000000-0000-0000-0000-000000000000", "%PDF-1.4 report"⟩
    "application/pdf" rfl rfl (by decide) rfl (by decide) rfl rfl rfl rfl rfl
    (by decide) rfl (by decide) rfl rfl (by decide)

/-! ## Claim C3: atomicity of the persisted analysis fields -/

/-- Is the key present in the parsed analysis with a non-null value? -/
def fieldPopulated (a : Json) (k : String) : Bool :=
  match jlookup a k with
  | some .null => false
  | some _ => true
  | none => false

/-- Do all five analysis fields carry non-null values? -/
def allFivePresent (a : Json) : Bool :=
  fieldPopulated a "summary" && fieldPopulated a "key_points" &&
    fieldPopulated a "sentiment" && fieldPopulated a "keywords" &&
    fieldPopulated a "entities"

/-- A populated field of the update populates the column. -/
theorem applyField_populated (a : Json) (k : String)
    (h : fieldPopulated a k = true) :
    (applyField none (jlookup a k)).isSome = true := by
  unfold fieldPopulated at h
  cases hj : jlookup a k with
  | none => rw [hj] at h; simp at h
  | some v =>
    cases v <;> rw [hj] at h <;> simp at h ⊢ <;> simp [applyField]

/-- A well-formed analyze request whose completion returns valid JSON
carrying only a `summary` field. -/
def partialAnalysisEnv : AnalyzeEnv :=
  ⟨true,
   some (Json.obj [("documentId", .str "00000000-0000-0000-0000-000000000000"),
                   ("content", .str "%PDF-1.4 report")]),
   some "application/pdf", true, 200,
   some "\x7b\"summary\": \"Short.\"\x7d", false⟩

/-- C3 counterexample: when the completion parses to an object missing
some analysis keys, the success-path update carries only the present
ones, so a persisted row ends up with `summary` populated, `key_points`
(and the rest) still null, and status `completed` — a partial analysis
state the claim says cannot be persisted. -/
theorem partial_analysis_persisted :
    (analyzeHandler partialAnalysisEnv).status = 200 ∧
    (persistFold {} (analyzeHandler partialAnalysisEnv).effects).summary.isSome = true ∧
    (persistFold {} (analyzeHandler partialAnalysisEnv).effects).keyPoints = none ∧
    (persistFold {} (analyzeHandler partialAnalysisEnv).effects).sentiment = none ∧
    (persistFold {} (analyzeHandler partialAnalysisEnv).effects).status = "completed" :=
  ⟨rfl, rfl, rfl, rfl, rfl⟩

/-- C3 (amended): on content-validation rejection the only write is the
single status-only `failed` update and every analysis field of a fresh
`processing` row stays null; on the success path the handler issues a
single update carrying `status: "completed"` together with whatever of
the five fields the parsed analysis provides — in particular, whenever
the parsed analysis (e.g. the fallback object, or any complete
response) carries all five, all five columns are populated together.
The code does not guarantee all-or-nothing population when the parsed
object lacks some keys. -/
theorem analysis_persistence (envF : AnalyzeEnv) (jf : Json) (pf : AnalyzePayload)
    (ftF : String) (envS : AnalyzeEnv) (js : Json) (ps : AnalyzePayload) (ftS : String)
    (hfAuth : envF.authHeader = true)
    (hfBody : envF.body = some jf)
    (hfVal : analyzeValidate jf = some pf)
    (hfDoc : envF.docFileType = some ftF)
    (hfCv : (validateContentType pf.content ftF).valid = false)
    (hsAuth : envS.authHeader = true)
    (hsBody : envS.body = some js)
    (hsVal : analyzeValidate js = some ps)
    (hsDoc : envS.docFileType = some ftS)
    (hsCv : (validateContentType ps.content ftS).valid = true)
    (hsKey : envS.hasApiKey = true)
    (hsUp : httpOk envS.upstreamStatus = true)
    (hsWr : envS.updateError = false)
    (hsFive : allFivePresent (parseAnalysis (aiTextOf envS.aiContent)) = true) :
    ((analyzeHandler envF).status = 400 ∧
     (analyzeHandler envF).effects =
       [.readDocument pf.documentId, .updateDocument pf.documentId failedUpdate] ∧
     persistFold {} (analyzeHandler envF).effects =
       { summary := none, keyPoints := none, sentiment := none, keywords := none,
         entities := none, status := "failed" }) ∧
    ((analyzeHandler envS).status = 200 ∧
     (analyzeHandler envS).effects =
       [.readDocument ps.documentId, .aiCall,
        .updateDocument ps.documentId (completedUpdate (parseAnalysis (aiTextOf envS.aiContent)))] ∧
     ((analyzeHandler envS).effects.filter Effect.isWrite).length = 1 ∧
     (persistFold {} (analyzeHandler envS).effects).summary.isSome = true ∧
     (persistFold {} (analyzeHandler envS).effects).keyPoints.isSome = true ∧
     (persistFold {} (analyzeHandler envS).effects).sentiment.isSome = true ∧
     (persistFold {} (analyzeHandler envS).effects).keywords.isSome = true ∧
     (persistFold {} (analyzeHandler envS).effects).entities.isSome = true ∧
     (persistFold {} (analyzeHandler envS).effects).status = "completed") := by
  simp only [allFivePresent, Bool.and_eq_true] at hsFive
  obtain ⟨⟨⟨⟨h1, h2⟩, h3⟩, h4⟩, h5⟩ := hsFive
  constructor
  · rcases hv : validateContentType pf.content ftF with ⟨valid, reason⟩
    rw [hv] at hfCv
    simp only at hfCv
    subst hfCv
    simp [analyzeHandler, hfAuth, hfBody, hfVal, hfDoc, hv, persistFold, applyUpdate,
      failedUpdate, applyField]
  · rcases hv : validateContentType ps.content ftS with ⟨valid, reason⟩
    rw [hv] at hsCv
    simp only at hsCv
    subst hsCv
    simp [analyzeHandler, hsAuth, hsBody, hsVal, hsDoc, hv, hsKey, hsUp, hsWr,
      persistFold, applyUpdate, completedUpdate, Effect.isWrite,
      applyField_populated _ _ h1, applyField_populated _ _ h2,
      applyField_populated _ _ h3, applyField_populated _ _ h4,
      applyField_populated _ _ h5]

set_option maxRecDepth 40000 in
/-- C3 witness: a rejected non-PDF upload and a successful analysis whose
completion carries all five fields. -/
theorem analysis_persistence_witness :
    ((analyzeHandler
        ⟨true,
         some (Json.obj [("documentId", .str "00000000-0000-0000-0000-000000000000"),
                          ("content", .str "nope")]),
         some "application/pdf", true, 200, none, false⟩).status = 400 ∧
     (analyzeHandler
        ⟨true,
         some (Json.obj [("documentId", .str "00000000-0000-0000-0000-000000000000"),
                          ("content", .str "nope")]),
         some "application/pdf", true, 200, none, false⟩).effects =
       [.readDocument "00000000-0000-0000-0000-000000000000",
        .updateDocument "00000000-0000-0000-0000-000000000000" failedUpdate] ∧
     persistFold {} (analyzeHandler
        ⟨true,
         some (Json.obj [("documentId", .str "00000000-0000-0000-0000-000000000000"),
                          ("content", .str "nope")]),
         some "application/pdf", true, 200, none, false⟩).effects =
       { summary := none, keyPoints := none, sentiment := none, keywords := none,
         entities := none, status := "failed" }) ∧
    ((analyzeHandler
        ⟨true,
         some (Json.obj [("documentId", .str "00000000-0000-0000-0000-000000000000"),
                          ("content", .str "%PDF-1.4 report")]),
         some "application/pdf", true, 200,
         some "\x7b\"summary\": \"s\", \"key_points\": [\"k\"], \"sentiment\": \"neutral\", \"keywords\": [], \"entities\": \x7b\x7d\x7d",
         false⟩).status = 200 ∧
     (analyzeHandler
        ⟨true,
         some (Json.obj [("documentId", .str "00000000-0000-0000-0000-000000000000"),
                          ("content", .str "%PDF-1.4 report")]),
         some "application/pdf", true, 200,
         some "\x7b\"summary\": \"s\", \"key_points\": [\"k\"], \"sentiment\": \"neutral\", \"keywords\": [], \"entities\": \x7b\x7d\x7d",
         false⟩).effects =
       [.readDocument "00000000-0000-0000-0000-000000000000", .aiCall,
        .updateDocument "00000000-0000-0000-0000-000000000000"
          (completedUpdate (parseAnalysis (aiTextOf
            (some "\x7b\"summary\": \"s\", \"key_points\": [\"k\"], \"sentiment\": \"neutral\", \"keywords\": [], \"entities\": \x7b\x7d\x7d"))))] ∧
     ((analyzeHandler
        ⟨true,
         some (Json.obj [("documentId", .str "00000000-0000-0000-0000-000000000000"),
                          ("content", .str "%PDF-1.4 report")]),
         some "application/pdf", true, 200,
         some "\x7b\"summary\": \"s\", \"key_points\": [\"k\"], \"sentiment\": \"neutral\", \"keywords\": [], \"entities\": \x7b\x7d\x7d",
         false⟩).effects.filter Effect.isWrite).length = 1 ∧
     (persistFold {} (analyzeHandler
        ⟨true,
         some (Json.obj [("documentId", .str "00000000-0000-0000-0000-000000000000"),
                          ("content", .str "%PDF-1.4 report")]),
         some "application/pdf", true, 200,
         some "\x7b\"summary\": \"s\", \"key_points\": [\"k\"], \"sentiment\": \"neutral\", \"keywords\": [], \"entities\": \x7b\x7d\x7d",
         false⟩).effects).summary.isSome = true ∧
     (persistFold {} (analyzeHandler
        ⟨true,
         some (Json.obj [("documentId", .str "00000000-0000-0000-0000-000000000000"),
                          ("content", .str "%PDF-1.4 report")]),
         some "application/pdf", true, 200,
         some "\x7b\"summary\": \"s\", \"key_points\": [\"k\"], \"sentiment\": \"neutral\", \"keywords\": [], \"entities\": \x7b\x7d\x7d",
         false⟩).effects).keyPoints.isSome = true ∧
     (persistFold {} (analyzeHandler
        ⟨true,
         some (Json.obj [("documentId", .str "00000000-0000-0000-0000-000000000000"),
                          ("content", .str "%PDF-1.4 report")]),
         some "application/pdf", true, 200,
         some "\x7b\"summary\": \"s\", \"key_points\": [\"k\"], \"sentiment\": \"neutral\", \"keywords\": [], \"entities\": \x7b\x7d\x7d",
         false⟩).effects).sentiment.isSome = true ∧
     (persistFold {} (analyzeHandler
        ⟨true,
         some (Json.obj [("documentId", .str "00000000-0000-0000-0000-000000000000"),
                          ("content", .str "%PDF-1.4 report")]),
         some "application/pdf", true, 200,
         some "\x7b\"summary\": \"s\", \"key_points\": [\"k\"], \"sentiment\": \"neutral\", \"keywords\": [], \"entities\": \x7b\x7d\x7d",
         false⟩).effects).keywords.isSome = true ∧
     (persistFold {} (analyzeHandler
        ⟨true,
         some (Json.obj [("documentId", .str "00000000-0000-0000-0000-000000000000"),
                          ("content", .str "%PDF-1.4 report")]),
         some "application/pdf", true, 200,
         some "\x7b\"summary\": \"s\", \"key_points\": [\"k\"], \"sentiment\": \"neutral\", \"keywords\": [], \"entities\": \x7b\x7d\x7d",
         false⟩).effects).entities.isSome = true ∧
     (persistFold {} (analyzeHandler
        ⟨true,
         some (Json.obj [("documentId", .str "00000000-0000-0000-0000-000000000000"),
                          ("content", .str "%PDF-1.4 report")]),
         some "application/pdf", true, 200,
         some "\x7b\"summary\": \"s\", \"key_points\": [\"k\"], \"sentiment\": \"neutral\", \"keywords\": [], \"entities\": \x7b\x7d\x7d",
         false⟩).effects).status = "completed") :=
  analysis_persistence _ _ ⟨"00000000-0000-0000-0000-000000000000", "nope"⟩ "application/pdf"
    _ _ ⟨"00000000-0000-0000-0000-000000000000", "%PDF-1.4 report"⟩ "application/pdf"
    rfl rfl rfl rfl (by decide) rfl rfl rfl rfl (by decide) rfl (by decide) rfl (by decide)

/-! ## Claim C8: recovery-code generation -/

/-- Hex rendering doubles the length. -/
theorem hexOfBytes_length (bs : List Nat) : (hexOfBytes bs).length = 2 * bs.length := by
  induction bs with
  | nil => rfl
  | cons b rest ih =>
    simp [hexOfBytes, hexByte] at ih ⊢
    omega

/-- A SHA-256 digest is 32 bytes, whatever the input. -/
theorem sha256_length (msg : List Nat) : (sha256 msg).length = 32 := by
  simp [sha256, be4]

/-- A stored code hash is a 64-character hex string. -/
theorem codeHash_length (c : String) : (codeHash c).length = 64 := by
  show (hexOfBytes (sha256 (utf8Encode c))).length = 64
  rw [hexOfBytes_length, sha256_length]

/-- A generated recovery code has at most 12 characters. -/
theorem genCode_length (bytes : List Nat) : (genCode bytes).length ≤ 12 := by
  show ((bytes.flatMap byteToB36U).take 12).length ≤ 12
  simp [List.length_take]

/-- C8: an authenticated request with its eight random draws returns
HTTP 200 carrying exactly the 8 plain-text codes; the handler first
deletes the user's previous codes and then inserts the SHA-256 hex
hashes of the new ones, and no inserted value ever equals any of the
plain-text codes (the hashes are 64 characters, the codes at most 12). -/
theorem recovery_codes_roundtrip (env : RecEnv) (uid : String)
    (henv : env.user = some uid)
    (hlen : env.randoms.length = 8)
    (hdel : env.deleteError = false)
    (hins : env.insertError = false) :
    (recoveryHandler env).status = 200 ∧
    (recoveryHandler env).codes = some (env.randoms.map genCode) ∧
    (env.randoms.map genCode).length = 8 ∧
    (recoveryHandler env).effects =
      [.deleteRecoveryCodes uid,
       .insertRecoveryCodes uid ((env.randoms.map genCode).map codeHash)] ∧
    ∀ h ∈ (env.randoms.map genCode).map codeHash,
      ∀ c ∈ env.randoms.map genCode, h ≠ c := by
  refine ⟨?_, ?_, ?_, ?_, ?_⟩
  · simp [recoveryHandler, henv, hdel, hins]
  · simp [recoveryHandler, henv, hdel, hins]
  · simp [hlen]
  · simp [recoveryHandler, henv, hdel, hins]
  · intro h hh c hc heq
    obtain ⟨x, -, hx⟩ := List.mem_map.mp hh
    obtain ⟨bs, -, hbs⟩ := List.mem_map.mp hc
    have h64 : h.length = 64 := by rw [← hx]; exact codeHash_length x
    have h12 : c.length ≤ 12 := by rw [← hbs]; exact genCode_length bs
    rw [heq] at h64
    omega

/-- C8 witness: eight all-zero random draws. -/
theorem recovery_codes_roundtrip_witness :
    (recoveryHandler ⟨some "u", List.replicate 8 (List.replicate 9 0), false, false⟩).status = 200 ∧
    (recoveryHandler ⟨some "u", List.replicate 8 (List.replicate 9 0), false, false⟩).codes =
      some ((List.replicate 8 (List.replicate 9 0)).map genCode) ∧
    ((List.replicate 8 (List.replicate 9 0)).map genCode).length = 8 ∧
    (recoveryHandler ⟨some "u", List.replicate 8 (List.replicate 9 0), false, false⟩).effects =
      [.deleteRecoveryCodes "u",
       .insertRecoveryCodes "u" (((List.replicate 8 (List.replicate 9 0)).map genCode).map codeHash)] ∧
    ∀ h ∈ ((List.replicate 8 (List.replicate 9 0)).map genCode).map codeHash,
      ∀ c ∈ (List.replicate 8 (List.replicate 9 0)).map genCode, h ≠ c :=
  recovery_codes_roundtrip ⟨some "u", List.replicate 8 (List.replicate 9 0), false, false⟩
    "u" rfl (by decide) rfl rfl

/-! ## Claim C4: the Result Parser -/

/-- Every list is a prefix of itself followed by anything. -/
theorem isPrefixB_append_self (p t : List Char) : isPrefixB p (p ++ t) = true := by
  induction p with
  | nil => rfl
  | cons c cs ih => simp [isPrefixB, ih]

/-- A match at the head makes the search answer index 0. -/
theorem findSubAux_zero (pat s : List Char) (h : isPrefixB pat s = true) :
    findSubAux pat s = some 0 := by
  cases s <;> simp [findSubAux, h]

/-- A failed search means no suffix starts with the pattern. -/
theorem findSubAux_none (pat s : List Char) (h : findSubAux pat s = none) :
    ∀ k, isPrefixB pat (s.drop k) = false := by
  induction s with
  | nil =>
    intro k
    rw [List.drop_nil]
    cases hp : isPrefixB pat [] with
    | false => rfl
    | true => rw [findSubAux, if_pos hp] at h; exact absurd h (by simp)
  | cons c cs ih =>
    intro k
    cases hp : isPrefixB pat (c :: cs) with
    | true => rw [findSubAux, if_pos hp] at h; exact absurd h (by simp)
    | false =>
      rw [findSubAux, if_neg (by simp [hp]), Option.map_eq_none'] at h
      cases k with
      | zero => simpa using hp
      | succ k' => exact ih h k'

/-- If the pattern is at least as long, a prefix test through an appended
tail reduces to the test on the first part. -/
theorem isPrefixB_append_long (pat ys t : List Char) (h : pat.length ≤ ys.length) :
    isPrefixB pat (ys ++ t) = isPrefixB pat ys := by
  induction pat generalizing ys with
  | nil => rfl
  | cons p ps ih =>
    cases ys with
    | nil => simp at h
    | cons c cs =>
      simp only [List.cons_append, isPrefixB, List.append_eq]
      rw [ih cs (by simpa using h)]

/-- The closer `"\n` ``` `"` cannot start inside the last three characters
before an appended copy of itself, because its own first character is a
newline where a backtick would be required. -/
theorem closer_no_span (ys : List Char) (h1 : ys ≠ []) (h4 : ys.length < 4) :
    isPrefixB "\n```".data (ys ++ "\n```".data) = false := by
  rcases ys with - | ⟨a, - | ⟨b, - | ⟨c, - | ⟨d, tl⟩⟩⟩⟩
  · exact absurd rfl h1
  · simp [isPrefixB]
  · simp [isPrefixB]
  · simp [isPrefixB]
  · simp at h4; omega

/-- Searching a text followed by the pattern finds the appended copy
when no earlier occurrence exists. -/
theorem findSubAux_append_pat (pat xs : List Char)
    (h : ∀ k, k < xs.length → isPrefixB pat (xs.drop k ++ pat) = false) :
    findSubAux pat (xs ++ pat) = some xs.length := by
  induction xs with
  | nil =>
    simp only [List.nil_append, List.length_nil]
    exact findSubAux_zero pat pat (by simpa using isPrefixB_append_self pat [])
  | cons x xs ih =>
    have h0 : isPrefixB pat (x :: (xs ++ pat)) = false := by
      simpa [List.cons_append] using h 0 (by simp)
    have hrec := ih (fun k hk => by simpa using h (k + 1) (by simpa using hk))
    simp [findSubAux, List.cons_append, h0, hrec]

/-- In `inner ++ "\n` ``` `"` with no closer occurring inside `inner`, the
first closer occurrence is the appended one. -/
theorem findCloser_append (inner : List Char)
    (hno : containsSub "\n```".data inner = false) :
    findSubAux "\n```".data (inner ++ "\n```".data) = some inner.length := by
  have hnone : findSubAux "\n```".data inner = none := by
    unfold containsSub at hno
    cases hf : findSubAux "\n```".data inner with
    | none => rfl
    | some i => rw [hf] at hno; simp at hno
  refine findSubAux_append_pat _ _ (fun k hk => ?_)
  by_cases hlong : 4 ≤ (inner.drop k).length
  · rw [isPrefixB_append_long _ _ _ (by simpa using hlong)]
    exact findSubAux_none _ _ hnone k
  · refine closer_no_span _ ?_ (by omega)
    intro hnil
    have hle := List.drop_eq_nil_iff.mp hnil
    omega

/-- The fenced-`json` extraction on a well-formed fenced block returns
exactly its interior. -/
theorem extractJsonFence_wrap (inner : String)
    (hno : containsSub "\n```".data inner.data = false) :
    extractJsonFence ("```json\n" ++ inner ++ "\n```") = some inner := by
  have hdata : ("```json\n" ++ inner ++ "\n```").data =
      "```json\n".data ++ (inner.data ++ "\n```".data) := by
    simp [String.data_append]
  have hopen : findSubAux "```json\n".data
      ("```json\n".data ++ (inner.data ++ "\n```".data)) = some 0 :=
    findSubAux_zero _ _ (isPrefixB_append_self _ _)
  have hdrop : ("```json\n".data ++ (inner.data ++ "\n```".data)).drop (0 + 8) =
      inner.data ++ "\n```".data := by
    simp
  have hclose := findCloser_append inner.data hno
  have htake : (inner.data ++ "\n```".data).take inner.data.length = inner.data :=
    List.take_left _ _
  simp only [extractJsonFence, hdata, hopen, hdrop, hclose, htake]

/-- C4: the Result Parser looks for a fenced `json` block first, then an
unmarked fenced block, and parses the block interior when one is found,
the whole completion otherwise; a completion that is exactly a fenced
`json` block with parseable interior yields exactly the parsed object,
and whenever the selected text fails to parse the parser returns the
fixed fallback object (it is a total function — nothing is thrown). -/
theorem result_parser_spec (inner : String) (v : Json) (s1 s2 s3 i2 i3 : String)
    (hno : containsSub "\n```".data inner.data = false)
    (hv : jsonParse inner = some v)
    (h1a : extractJsonFence s1 = none)
    (h1b : extractPlainFence s1 = none)
    (h1c : jsonParse s1 = none)
    (h2 : extractJsonFence s2 = some i2)
    (h3a : extractJsonFence s3 = none)
    (h3b : extractPlainFence s3 = some i3) :
    parseAnalysis ("```json\n" ++ inner ++ "\n```") = v ∧
    parseAnalysis s1 = fallbackAnalysis ∧
    parseAnalysis s2 = (jsonParse i2).getD fallbackAnalysis ∧
    parseAnalysis s3 = (jsonParse i3).getD fallbackAnalysis := by
  refine ⟨?_, ?_, ?_, ?_⟩
  · simp [parseAnalysis, selectAnalysisText, extractJsonFence_wrap inner hno, hv]
  · simp [parseAnalysis, selectAnalysisText, h1a, h1b, h1c]
  · cases hj : jsonParse i2 <;> simp [parseAnalysis, selectAnalysisText, h2, hj]
  · cases hj : jsonParse i3 <;> simp [parseAnalysis, selectAnalysisText, h3a, h3b, hj]

set_option maxRecDepth 4000 in
/-- C4 witness: a fenced `json` object, plain unparseable text, a fenced
`json` block and an unmarked fenced block. -/
theorem result_parser_spec_witness :
    parseAnalysis ("```json\n" ++ "\x7b\"a\": 1\x7d" ++ "\n```") = .obj [("a", .num "1")] ∧
    parseAnalysis "hello" = fallbackAnalysis ∧
    parseAnalysis "```json\nnull\n```" = (jsonParse "null").getD fallbackAnalysis ∧
    parseAnalysis "```\ntrue\n```" = (jsonParse "true").getD fallbackAnalysis :=
  result_parser_spec "\x7b\"a\": 1\x7d" (.obj [("a", .num "1")])
    "hello" "```json\nnull\n```" "```\ntrue\n```" "null" "true"
    (by decide) rfl rfl rfl rfl rfl rfl rfl

end Pipeline
